import Mathlib

/-!
Shallow embedding of the Qubit-Quests VQE dashboard logic (src/src/App.tsx and
the ResultsTable component).  The two generator routines (`runVQE` and
`generateDissociationCurve`) are modelled as explicit state transformers over
an `AppState` record mirroring the React state hooks; each `setX` React state
setter becomes a function on `AppState`, and each loop body becomes a step
function iterated over the loop index.  `Math.random()` is modelled as an
oracle `rand : ℕ → ℝ` giving the draw of each iteration; `Math.exp` is
`Real.exp`; JS numbers are real numbers.  Calls to `setResults` made inside
`runVQE` are additionally recorded in a `publishLog` event trace so that the
publication pattern can be stated.
-/

namespace QubitQuests

/-- The `molecule` field of `MoleculeConfig`: the TS union type of the labels H2 and LiH. -/
inductive Molecule
  | H2
  | LiH
deriving DecidableEq

/-- `MoleculeConfig` from App.tsx (lines 28-37). -/
structure MoleculeConfig where
  molecule : Molecule
  bondLength : ℝ
  basis : String
  ansatz : String
  optimizer : String
  backend : String
  shots : ℕ
  maxIterations : ℕ

/-- One element of the `convergence` array: `{ iteration, energy }`. -/
structure ConvergencePoint where
  iteration : ℕ
  energy : ℝ

/-- The `diagnostics` record of `VQEResult` (App.tsx lines 18-25). -/
structure Diagnostics where
  qubits : ℕ
  pauliTerms : ℕ
  circuitDepth : ℕ
  evaluations : ℕ
  totalShots : ℕ
  error : ℝ

/-- `VQEResult` from App.tsx (lines 15-26). -/
structure VQEResult where
  energy : ℝ
  convergence : List ConvergencePoint
  diagnostics : Diagnostics

/-- One element of `dissociationData`: `{ r, energy }`. -/
structure DissociationPoint where
  r : ℝ
  energy : ℝ

/-- The React state of `App`: `isRunning`, `progress`, `results`,
`dissociationData` (App.tsx lines 51-54). -/
structure AppState where
  isRunning : Bool
  progress : ℝ
  results : Option VQEResult
  dissociationData : List DissociationPoint

/-- Model of the `setIsRunning` state setter. -/
def setIsRunning (b : Bool) (s : AppState) : AppState := { s with isRunning := b }

/-- Model of the `setProgress` state setter. -/
def setProgress (p : ℝ) (s : AppState) : AppState := { s with progress := p }

/-- Model of the `setResults` state setter. -/
def setResults (r : Option VQEResult) (s : AppState) : AppState := { s with results := r }

/-- Model of the `setDissociationData` state setter. -/
def setDissociationData (d : List DissociationPoint) (s : AppState) : AppState :=
  { s with dissociationData := d }

/-- `baseEnergy` in `runVQE` (App.tsx line 68):
the two-way conditional on the molecule label. -/
noncomputable def baseEnergy (config : MoleculeConfig) : ℝ :=
  if config.molecule = Molecule.H2 then -1.13727 else -7.8773

/-- The energy computed at iteration `i` of `runVQE` (App.tsx lines 69-70):
`baseEnergy + Math.exp(-i * 0.1) * 0.01 * (Math.random() - 0.5)`, where
`rand i` is the value drawn from `Math.random()` at iteration `i`. -/
noncomputable def energyAt (config : MoleculeConfig) (rand : ℕ → ℝ) (i : ℕ) : ℝ :=
  baseEnergy config + Real.exp (-(i : ℝ) * 0.1) * 0.01 * (rand i - 0.5)

/-- The `diagnostics` record built at iteration `i` of `runVQE`
(App.tsx lines 79-86). -/
noncomputable def mkDiagnostics (config : MoleculeConfig) (i : ℕ) (energy : ℝ) : Diagnostics :=
  { qubits := if config.molecule = Molecule.H2 then 2 else 8
    pauliTerms := if config.molecule = Molecule.H2 then 5 else 24
    circuitDepth := if config.ansatz = "UCCSD" then 12 else 6
    evaluations := i + 1
    totalShots := if config.backend = "statevector" then 0 else config.shots * (i + 1)
    error := |energy - baseEnergy config| * 1000 }

/-- State threaded through the `runVQE` loop: the local `convergenceData`
array, the React state, and the event trace of `setResults` calls
(each entry records the iteration at which the snapshot was published). -/
structure LoopState where
  convergenceData : List ConvergencePoint
  app : AppState
  publishLog : List (ℕ × VQEResult)

/-- Body of the `runVQE` loop for iteration `i` (App.tsx lines 64-89):
compute the energy, push the convergence point, set the progress to
`(i / 50) * 100`, and when `i % 5 === 0` publish a `VQEResult` snapshot
via `setResults`. -/
noncomputable def vqeStep (config : MoleculeConfig) (rand : ℕ → ℝ) (i : ℕ)
    (s : LoopState) : LoopState :=
  let energy := energyAt config rand i
  let convergenceData := s.convergenceData ++ [⟨i, energy⟩]
  let app := setProgress ((i : ℝ) / 50 * 100) s.app
  if i % 5 = 0 then
    let result : VQEResult := ⟨energy, convergenceData, mkDiagnostics config i energy⟩
    ⟨convergenceData, setResults (some result) app, s.publishLog ++ [(i, result)]⟩
  else
    ⟨convergenceData, app, s.publishLog⟩

/-- `vqeLoop config rand s0 n` runs iterations `0, 1, ..., n-1` of the
`runVQE` loop starting from `s0`. -/
noncomputable def vqeLoop (config : MoleculeConfig) (rand : ℕ → ℝ) (s0 : LoopState) :
    ℕ → LoopState
  | 0 => s0
  | n + 1 => vqeStep config rand n (vqeLoop config rand s0 n)

/-- The state at the start of a `runVQE` run (App.tsx lines 57-61):
`setIsRunning(true)`, `setProgress(0)`, a fresh empty `convergenceData`
array, and no snapshot published yet. -/
def initLoop (app : AppState) : LoopState :=
  ⟨[], setProgress 0 (setIsRunning true app), []⟩

/-- `runVQE` (App.tsx lines 56-92): initialise, run iterations `0..50`
(`totalIterations = 50`, loop condition `i <= totalIterations`), then
`setIsRunning(false)`. -/
noncomputable def runVQE (config : MoleculeConfig) (rand : ℕ → ℝ) (app : AppState) :
    LoopState :=
  let s := vqeLoop config rand (initLoop app) 51
  ⟨s.convergenceData, setIsRunning false s.app, s.publishLog⟩

/-- Closed form of the `convergenceData` array after `n` iterations:
the points for iterations `0, ..., n-1`. -/
noncomputable def convSeq (config : MoleculeConfig) (rand : ℕ → ℝ) (n : ℕ) :
    List ConvergencePoint :=
  (List.range n).map (fun j => ⟨j, energyAt config rand j⟩)

/-- Closed form of the `VQEResult` snapshot published at iteration `i`. -/
noncomputable def snapshot (config : MoleculeConfig) (rand : ℕ → ℝ) (i : ℕ) : VQEResult :=
  ⟨energyAt config rand i, convSeq config rand (i + 1),
    mkDiagnostics config i (energyAt config rand i)⟩

/-- `bondLengths` in `generateDissociationCurve` (App.tsx line 97):
`Array.from({length: 15}, (_, i) => 0.4 + i * 0.15)`. -/
noncomputable def bondLengths : List ℝ :=
  (List.range 15).map (fun i : ℕ => 0.4 + (i : ℝ) * 0.15)

/-- The Morse-potential formula of `generateDissociationCurve`
(App.tsx lines 104-108), with the hardcoded constants `D`, `a`, `re`. -/
noncomputable def morseEnergy (r : ℝ) : ℝ :=
  let D := (0.4556 : ℝ);
  let a := (1.44 : ℝ);
  let re := (0.74 : ℝ);
  -1.13727 + D * (1 - Real.exp (-a * (r - re))) ^ 2 - D

/-- Closed form of the full `curveData` array: one point per bond length. -/
noncomputable def curveData : List DissociationPoint :=
  bondLengths.map (fun r => ⟨r, morseEnergy r⟩)

/-- Body of the `generateDissociationCurve` loop for index `i`
(App.tsx lines 99-112): `r = bondLengths[i] = 0.4 + i * 0.15`, push the
point, set the progress to `(i / 15) * 100` (`bondLengths.length = 15`).
Note the loop never touches `dissociationData` or `results`. -/
noncomputable def dissocStep (i : ℕ) (p : List DissociationPoint × AppState) :
    List DissociationPoint × AppState :=
  let r := 0.4 + (i : ℝ) * 0.15
  (p.1 ++ [⟨r, morseEnergy r⟩], setProgress ((i : ℝ) / 15 * 100) p.2)

/-- `dissocLoop n p` runs indices `0, ..., n-1` of the dissociation loop. -/
noncomputable def dissocLoop : ℕ → (List DissociationPoint × AppState) →
    List DissociationPoint × AppState
  | 0, p => p
  | n + 1, p => dissocStep n (dissocLoop n p)

/-- `generateDissociationCurve` (App.tsx lines 94-116): `setIsRunning(true)`,
run the 15-index loop with a fresh empty `curveData` array, then publish the
whole array at once via `setDissociationData` and `setIsRunning(false)`. -/
noncomputable def generateDissociationCurve (app : AppState) : AppState :=
  let p := dissocLoop 15 ([], setIsRunning true app)
  setIsRunning false (setDissociationData p.1 p.2)

/-- The record serialized by `exportResults` (App.tsx lines 121-125); its
`results` field is non-null because of the guard on line 119. -/
structure ExportData where
  configuration : MoleculeConfig
  results : VQEResult
  dissociation : List DissociationPoint

/-- String form of a molecule, as interpolated into the filename. -/
def moleculeName : Molecule → String
  | Molecule.H2 => "H2"
  | Molecule.LiH => "LiH"

/-- `exportResults` (App.tsx lines 118-133): when `results` is null, return
immediately (no serialization, no download); otherwise build the export
record and offer it under `vqe_results_<molecule>_<bondLength>A.json`.
`render` models the JS number-to-string rendering of `bondLength` in the
template literal. -/
def exportResults (render : ℝ → String) (config : MoleculeConfig)
    (results : Option VQEResult) (dissociation : List DissociationPoint) :
    Option (ExportData × String) :=
  match results with
  | none => none
  | some r =>
    some (⟨config, r, dissociation⟩,
      "vqe_results_" ++ moleculeName config.molecule ++ "_" ++
        render config.bondLength ++ "A.json")

/-- The chemical-accuracy label displayed by `App` (App.tsx line 316):
`error < 1.6 ? "✓ Achieved" : "✗ Not reached"`. -/
noncomputable def chemAccuracyLabel (error : ℝ) : String :=
  if error < 1.6 then "✓ Achieved" else "✗ Not reached"

/-- Hartree-to-electronvolt conversion used by `ResultsTable`
(`results.energy * 27.2114`). -/
noncomputable def haToEV (ha : ℝ) : ℝ := ha * 27.2114

/-- A sample configuration: the initial `config` state of `App`
(App.tsx lines 40-49). -/
noncomputable def sampleConfig : MoleculeConfig :=
  ⟨Molecule.H2, 0.74, "STO-3G", "UCCSD", "COBYLA", "statevector", 4000, 200⟩

/-- A sample prior application state (the initial React state). -/
def sampleApp : AppState := ⟨false, 0, none, []⟩

/-- A random oracle always drawing 0.5, i.e. zero jitter. -/
def halfRand : ℕ → ℝ := fun _ => 0.5

/-- A random oracle always drawing 0 (the lower end of `Math.random()`). -/
def zeroRand : ℕ → ℝ := fun _ => 0

/-- One unfolding of the `runVQE` loop. -/
theorem vqeLoop_succ (config : MoleculeConfig) (rand : ℕ → ℝ) (s0 : LoopState) (n : ℕ) :
    vqeLoop config rand s0 (n + 1) = vqeStep config rand n (vqeLoop config rand s0 n) := rfl

/-- `convSeq` grows by one point per iteration. -/
theorem convSeq_succ (config : MoleculeConfig) (rand : ℕ → ℝ) (n : ℕ) :
    convSeq config rand (n + 1) =
      convSeq config rand n ++ [⟨n, energyAt config rand n⟩] := by
  simp [convSeq, List.range_succ]

/-- The `convergenceData` array after `n` iterations of the loop. -/
theorem vqeLoop_convergenceData (config : MoleculeConfig) (rand : ℕ → ℝ) (s0 : LoopState)
    (n : ℕ) : (vqeLoop config rand s0 n).convergenceData =
      s0.convergenceData ++ convSeq config rand n := by
  induction n with
  | zero => simp [vqeLoop, convSeq]
  | succ n ih =>
    by_cases h : n % 5 = 0 <;>
      simp [vqeLoop, vqeStep, h, ih, convSeq_succ, List.append_assoc]

/-- After `n` iterations from a fresh run start, `convergenceData` holds
exactly the points of iterations `0..n-1`. -/
theorem vqeLoop_init_convergenceData (config : MoleculeConfig) (rand : ℕ → ℝ)
    (app : AppState) (n : ℕ) :
    (vqeLoop config rand (initLoop app) n).convergenceData = convSeq config rand n := by
  simpa [initLoop] using vqeLoop_convergenceData config rand (initLoop app) n

/-- Length of `convergenceData` after `n` iterations of a fresh run. -/
theorem vqeLoop_length (config : MoleculeConfig) (rand : ℕ → ℝ) (app : AppState) (n : ℕ) :
    (vqeLoop config rand (initLoop app) n).convergenceData.length = n := by
  simp [vqeLoop_init_convergenceData, convSeq]

/-- The `runVQE` loop never touches `dissociationData`. -/
theorem vqeLoop_dissociationData (config : MoleculeConfig) (rand : ℕ → ℝ) (s0 : LoopState)
    (n : ℕ) : (vqeLoop config rand s0 n).app.dissociationData = s0.app.dissociationData := by
  induction n with
  | zero => rfl
  | succ n ih =>
    by_cases h : n % 5 = 0 <;>
      simp [vqeLoop, vqeStep, h, setResults, setProgress, ih]

/-- The event trace of `setResults` calls after `n` iterations of a fresh
run: one snapshot per iteration `i < n` with `i % 5 = 0`. -/
theorem vqeLoop_publishLog (config : MoleculeConfig) (rand : ℕ → ℝ) (app : AppState)
    (n : ℕ) : (vqeLoop config rand (initLoop app) n).publishLog =
      ((List.range n).filter (fun i => decide (i % 5 = 0))).map
        (fun i => (i, snapshot config rand i)) := by
  induction n with
  | zero => simp [vqeLoop, initLoop]
  | succ n ih =>
    have hc := vqeLoop_init_convergenceData config rand app n
    by_cases h : n % 5 = 0
    · simp [vqeLoop, vqeStep, h, ih, List.range_succ, List.filter_append, hc,
        snapshot, convSeq_succ]
    · simp [vqeLoop, vqeStep, h, ih, List.range_succ, List.filter_append]

/-- The publish log of a complete `runVQE` run. -/
theorem runVQE_publishLog (config : MoleculeConfig) (rand : ℕ → ℝ) (app : AppState) :
    (runVQE config rand app).publishLog =
      ((List.range 51).filter (fun i => decide (i % 5 = 0))).map
        (fun i => (i, snapshot config rand i)) := by
  simp [runVQE, vqeLoop_publishLog]

/-- A publishing step (`i % 5 = 0`) stores the snapshot of iteration `i`
in `results`. -/
theorem vqeStep_results_publish (config : MoleculeConfig) (rand : ℕ → ℝ) (i : ℕ)
    (s : LoopState) (hi : i % 5 = 0)
    (hconv : s.convergenceData = convSeq config rand i) :
    (vqeStep config rand i s).app.results = some (snapshot config rand i) := by
  simp [vqeStep, hi, setResults, setProgress, snapshot, hconv, convSeq_succ]

/-- After the full 51-iteration loop, `results` holds the snapshot of
iteration 50. -/
theorem vqeLoop_results_51 (config : MoleculeConfig) (rand : ℕ → ℝ) (app : AppState) :
    (vqeLoop config rand (initLoop app) 51).app.results =
      some (snapshot config rand 50) := by
  rw [show (51 : ℕ) = 50 + 1 from rfl, vqeLoop_succ]
  exact vqeStep_results_publish config rand 50 _ (by norm_num)
    (vqeLoop_init_convergenceData config rand app 50)

/-- The accumulated curve after `n` steps of the dissociation loop. -/
theorem dissocLoop_fst (p : List DissociationPoint × AppState) (n : ℕ) :
    (dissocLoop n p).1 = p.1 ++ (List.range n).map
      (fun i : ℕ => DissociationPoint.mk (0.4 + (i : ℝ) * 0.15)
        (morseEnergy (0.4 + (i : ℝ) * 0.15))) := by
  induction n with
  | zero => simp [dissocLoop]
  | succ n ih => simp [dissocLoop, dissocStep, ih, List.range_succ]

/-- The dissociation loop never touches `dissociationData`. -/
theorem dissocLoop_dissociationData (p : List DissociationPoint × AppState) (n : ℕ) :
    (dissocLoop n p).2.dissociationData = p.2.dissociationData := by
  induction n with
  | zero => rfl
  | succ n ih => simp [dissocLoop, dissocStep, setProgress, ih]

/-- The dissociation loop never touches `results`. -/
theorem dissocLoop_results (p : List DissociationPoint × AppState) (n : ℕ) :
    (dissocLoop n p).2.results = p.2.results := by
  induction n with
  | zero => rfl
  | succ n ih => simp [dissocLoop, dissocStep, setProgress, ih]

/-- Closed form of `curveData` as a map over the index range. -/
theorem curveData_eq :
    curveData = (List.range 15).map
      (fun i : ℕ => DissociationPoint.mk (0.4 + (i : ℝ) * 0.15)
        (morseEnergy (0.4 + (i : ℝ) * 0.15))) := by
  simp [curveData, bondLengths, List.map_map]

/-- The `k`-th bond length is `0.4 + 0.15 * k`. -/
theorem bondLengths_getD (k : ℕ) (hk : k < 15) :
    bondLengths.getD k 0 = 0.4 + (k : ℝ) * 0.15 := by
  rw [bondLengths, List.getD_eq_getElem?_getD, List.getElem?_map,
    List.getElem?_range hk]
  rfl

/-- `energyAt` rewritten with the decay factor in the orientation used by the spec. -/
theorem energyAt_eq (config : MoleculeConfig) (rand : ℕ → ℝ) (i : ℕ) :
    energyAt config rand i = baseEnergy config +
      Real.exp (-0.1 * (i : ℝ)) * (0.01 * (rand i - 0.5)) := by
  unfold energyAt
  rw [show -(i : ℝ) * 0.1 = -0.1 * (i : ℝ) by ring]
  ring

/-- With a centered draw (zero jitter) the energy is exactly the reference. -/
theorem energyAt_half (config : MoleculeConfig) (rand : ℕ → ℝ) (i : ℕ)
    (h : rand i = 0.5) : energyAt config rand i = baseEnergy config := by
  simp [energyAt, h]

/-- C1: within a run of the Convergence Simulator the convergence sequence
length is monotonically non-decreasing, and at the start of a new run the
sequence is reset to empty (with nothing yet published), whatever the prior
application state; the snapshots published during the run carry sequences of
strictly growing lengths 1, 6, ..., 51. -/
theorem spec_C1 (config : MoleculeConfig) (rand : ℕ → ℝ) (app : AppState)
    (i j : ℕ) (hij : i ≤ j) :
    (vqeLoop config rand (initLoop app) i).convergenceData.length ≤
      (vqeLoop config rand (initLoop app) j).convergenceData.length ∧
    (initLoop app).convergenceData = [] ∧
    (initLoop app).publishLog = [] ∧
    (runVQE config rand app).publishLog.map (fun q => q.2.convergence.length) =
      [1, 6, 11, 16, 21, 26, 31, 36, 41, 46, 51] := by
  refine ⟨?_, rfl, rfl, ?_⟩
  · rw [vqeLoop_length, vqeLoop_length]
    exact hij
  · rw [runVQE_publishLog, List.map_map]
    have h : ((fun q : ℕ × VQEResult => q.2.convergence.length) ∘
        fun i : ℕ => (i, snapshot config rand i)) = fun i : ℕ => i + 1 := by
      funext a
      simp [snapshot, convSeq]
    rw [h]
    decide

/-- Witness for C1 at a concrete configuration, oracle and index pair. -/
theorem spec_C1_witness :
    (vqeLoop sampleConfig halfRand (initLoop sampleApp) 1).convergenceData.length ≤
      (vqeLoop sampleConfig halfRand (initLoop sampleApp) 2).convergenceData.length ∧
    (initLoop sampleApp).convergenceData = [] ∧
    (initLoop sampleApp).publishLog = [] ∧
    (runVQE sampleConfig halfRand sampleApp).publishLog.map
      (fun q => q.2.convergence.length) = [1, 6, 11, 16, 21, 26, 31, 36, 41, 46, 51] :=
  spec_C1 sampleConfig halfRand sampleApp 1 2 (by norm_num)

/-- C2: at every iteration the energy is
`reference + exp(-0.1 * i) * (0.01 * (rand i - 0.5))`, with reference
-1.13727 for H2 and -7.8773 otherwise; with zero jitter (`rand i = 0.5`)
the energy equals the reference exactly and the diagnostics error is 0. -/
theorem spec_C2 (config : MoleculeConfig) (rand : ℕ → ℝ) (i : ℕ) :
    energyAt config rand i =
      (if config.molecule = Molecule.H2 then (-1.13727 : ℝ) else -7.8773) +
        Real.exp (-0.1 * (i : ℝ)) * (0.01 * (rand i - 0.5)) ∧
    (rand i = 0.5 →
      energyAt config rand i = baseEnergy config ∧
      (mkDiagnostics config i (energyAt config rand i)).error = 0) := by
  constructor
  · rw [energyAt_eq]
    simp [baseEnergy]
  · intro h
    have he := energyAt_half config rand i h
    refine ⟨he, ?_⟩
    simp [mkDiagnostics, he]

/-- Witness for C2 at the sample configuration and the zero-jitter oracle. -/
theorem spec_C2_witness :
    energyAt sampleConfig halfRand 3 = baseEnergy sampleConfig ∧
    (mkDiagnostics sampleConfig 3 (energyAt sampleConfig halfRand 3)).error = 0 :=
  (spec_C2 sampleConfig halfRand 3).2 rfl

/-- C3: a snapshot is published exactly at the iterations that are multiples
of 5 in `0..50`: 11 snapshots per run, 51 convergence points in total, the
final stored result is the iteration-50 snapshot with 51 points and
`evaluations = 51`. -/
theorem spec_C3 (config : MoleculeConfig) (rand : ℕ → ℝ) (app : AppState) :
    (runVQE config rand app).publishLog.map Prod.fst =
      [0, 5, 10, 15, 20, 25, 30, 35, 40, 45, 50] ∧
    (runVQE config rand app).publishLog.length = 11 ∧
    (runVQE config rand app).convergenceData.length = 51 ∧
    (runVQE config rand app).app.results = some (snapshot config rand 50) ∧
    (snapshot config rand 50).convergence.length = 51 ∧
    (snapshot config rand 50).diagnostics.evaluations = 51 := by
  refine ⟨?_, ?_, ?_, ?_, ?_, rfl⟩
  · rw [runVQE_publishLog, List.map_map]
    have h : (Prod.fst ∘ fun i : ℕ => (i, snapshot config rand i)) =
        fun i : ℕ => i := rfl
    rw [h]
    decide
  · rw [runVQE_publishLog, List.length_map]
    decide
  · show (vqeLoop config rand (initLoop app) 51).convergenceData.length = 51
    exact vqeLoop_length config rand app 51
  · show (setIsRunning false (vqeLoop config rand (initLoop app) 51).app).results = _
    rw [setIsRunning]
    exact vqeLoop_results_51 config rand app
  · simp [snapshot, convSeq]

/-- C4: every published snapshot at iteration `i` carries diagnostics with
`evaluations = i + 1`, `totalShots = 0` for the statevector backend and
`shots * (i + 1)` otherwise, qubits/pauliTerms/circuitDepth given by the
molecule/ansatz lookups, and an error recomputed from that same published
energy. -/
theorem spec_C4 (config : MoleculeConfig) (rand : ℕ → ℝ) (app : AppState)
    (i : ℕ) (r : VQEResult)
    (hmem : (i, r) ∈ (runVQE config rand app).publishLog) :
    r.diagnostics.evaluations = i + 1 ∧
    r.diagnostics.totalShots =
      (if config.backend = "statevector" then 0 else config.shots * (i + 1)) ∧
    r.diagnostics.qubits = (if config.molecule = Molecule.H2 then 2 else 8) ∧
    r.diagnostics.pauliTerms = (if config.molecule = Molecule.H2 then 5 else 24) ∧
    r.diagnostics.circuitDepth = (if config.ansatz = "UCCSD" then 12 else 6) ∧
    r.diagnostics.error = |r.energy - baseEnergy config| * 1000 := by
  rw [runVQE_publishLog] at hmem
  rcases List.mem_map.mp hmem with ⟨a, _, heq⟩
  obtain ⟨h1, h2⟩ := Prod.mk.inj heq
  subst h1
  subst h2
  exact ⟨rfl, rfl, rfl, rfl, rfl, rfl⟩

/-- Witness for C4 at the snapshot published at iteration 0 of a concrete run. -/
theorem spec_C4_witness :
    (snapshot sampleConfig halfRand 0).diagnostics.evaluations = 0 + 1 ∧
    (snapshot sampleConfig halfRand 0).diagnostics.totalShots =
      (if sampleConfig.backend = "statevector" then 0
        else sampleConfig.shots * (0 + 1)) ∧
    (snapshot sampleConfig halfRand 0).diagnostics.qubits =
      (if sampleConfig.molecule = Molecule.H2 then 2 else 8) ∧
    (snapshot sampleConfig halfRand 0).diagnostics.pauliTerms =
      (if sampleConfig.molecule = Molecule.H2 then 5 else 24) ∧
    (snapshot sampleConfig halfRand 0).diagnostics.circuitDepth =
      (if sampleConfig.ansatz = "UCCSD" then 12 else 6) ∧
    (snapshot sampleConfig halfRand 0).diagnostics.error =
      |(snapshot sampleConfig halfRand 0).energy - baseEnergy sampleConfig| * 1000 :=
  spec_C4 sampleConfig halfRand sampleApp 0 (snapshot sampleConfig halfRand 0)
    (by rw [runVQE_publishLog]
        exact List.mem_map.mpr ⟨0, by decide, rfl⟩)

/-- C5: the dissociation curve has exactly 15 points at bond lengths
`0.4 + 0.15 * k` for `k = 0..14` (so from 0.40 to 2.50), with the fixed
Morse formula (no dependence on the configured molecule: `morseEnergy` and
`curveData` take no configuration at all); at `r = 0.74` the formula gives
-1.59287; during the loop nothing is published, and after the run the full
curve is stored at once. -/
theorem spec_C5 (app : AppState) (p : List DissociationPoint × AppState) (n : ℕ) :
    curveData.length = 15 ∧
    curveData = (List.range 15).map
      (fun k : ℕ => DissociationPoint.mk (0.4 + 0.15 * (k : ℝ))
        (morseEnergy (0.4 + 0.15 * (k : ℝ)))) ∧
    bondLengths.getD 0 0 = 0.4 ∧
    bondLengths.getD 14 0 = 2.5 ∧
    morseEnergy 0.74 = -1.59287 ∧
    (dissocLoop n p).2.dissociationData = p.2.dissociationData ∧
    (generateDissociationCurve app).dissociationData = curveData := by
  refine ⟨?_, ?_, ?_, ?_, ?_, dissocLoop_dissociationData p n, ?_⟩
  · simp [curveData, bondLengths]
  · rw [curveData_eq]
    refine List.map_congr_left fun a _ => ?_
    have h : (0.4 : ℝ) + (a : ℝ) * 0.15 = 0.4 + 0.15 * (a : ℝ) := by ring
    rw [h]
  · rw [bondLengths_getD 0 (by norm_num)]
    norm_num
  · rw [bondLengths_getD 14 (by norm_num)]
    norm_num
  · simp only [morseEnergy]
    norm_num [Real.exp_zero]
  · simp [generateDissociationCurve, setIsRunning, setDissociationData,
      dissocLoop_fst, curveData_eq]

/-- C6: export is a no-op when no result exists; with a result it produces
exactly the record of configuration, result and dissociation data, under the
filename `vqe_results_<molecule>_<bondLength>A.json`. -/
theorem spec_C6 (render : ℝ → String) (config : MoleculeConfig)
    (r : VQEResult) (d : List DissociationPoint) :
    exportResults render config none d = none ∧
    exportResults render config (some r) d =
      some (⟨config, r, d⟩,
        "vqe_results_" ++ moleculeName config.molecule ++ "_" ++
          render config.bondLength ++ "A.json") :=
  ⟨rfl, rfl⟩

/-- C7: the chemical-accuracy classifier reports achieved exactly when the
error in milli-Hartree is strictly below 1.6: 1.5999 is achieved, 1.6 is
not, and so is any error at or above 1.6. -/
theorem spec_C7 (e : ℝ) :
    (chemAccuracyLabel e = "✓ Achieved" ↔ e < 1.6) ∧
    chemAccuracyLabel 1.5999 = "✓ Achieved" ∧
    chemAccuracyLabel 1.6 = "✗ Not reached" ∧
    (1.6 ≤ e → chemAccuracyLabel e = "✗ Not reached") := by
  refine ⟨?_, ?_, ?_, fun h => ?_⟩
  · unfold chemAccuracyLabel
    split_ifs with h
    · exact iff_of_true rfl h
    · exact iff_of_false (by decide) h
  · norm_num [chemAccuracyLabel]
  · norm_num [chemAccuracyLabel]
  · unfold chemAccuracyLabel
    rw [if_neg (not_lt.mpr h)]

/-- Witness for C7 at the boundary value 1.6. -/
theorem spec_C7_witness : chemAccuracyLabel 1.6 = "✗ Not reached" :=
  (spec_C7 1.6).2.2.2 (by norm_num)

/-- C8: Hartree-to-eV conversion multiplies by 27.2114 and dividing back by
27.2114 recovers the original value for every energy. -/
theorem spec_C8 (ha : ℝ) :
    haToEV ha = ha * 27.2114 ∧ haToEV ha / 27.2114 = ha := by
  refine ⟨rfl, ?_⟩
  unfold haToEV
  rw [mul_div_assoc, div_self (by norm_num : (27.2114 : ℝ) ≠ 0), mul_one]

/-- C9: whatever the random source draws in `[0, 1)`, the energy stays
within `0.005 * exp(-0.1 * i)` of the reference, so the published error is
at most `5 * exp(-0.1 * i)` milli-Hartree. -/
theorem spec_C9 (config : MoleculeConfig) (rand : ℕ → ℝ) (i : ℕ)
    (h0 : 0 ≤ rand i) (h1 : rand i < 1) :
    |energyAt config rand i - baseEnergy config| ≤
      0.005 * Real.exp (-0.1 * (i : ℝ)) ∧
    (mkDiagnostics config i (energyAt config rand i)).error ≤
      5 * Real.exp (-0.1 * (i : ℝ)) := by
  have h2 : energyAt config rand i - baseEnergy config =
      Real.exp (-0.1 * (i : ℝ)) * (0.01 * (rand i - 0.5)) := by
    rw [energyAt_eq]
    ring
  have habs : |0.01 * (rand i - 0.5)| ≤ 0.005 := by
    rw [abs_mul]
    have hr : |rand i - 0.5| ≤ 0.5 := abs_le.mpr ⟨by linarith, by linarith⟩
    have h01 : |(0.01 : ℝ)| = 0.01 := by norm_num [abs_of_pos]
    rw [h01]
    nlinarith
  have key : |energyAt config rand i - baseEnergy config| ≤
      0.005 * Real.exp (-0.1 * (i : ℝ)) := by
    rw [h2, abs_mul, Real.abs_exp]
    calc Real.exp (-0.1 * (i : ℝ)) * |0.01 * (rand i - 0.5)| ≤
        Real.exp (-0.1 * (i : ℝ)) * 0.005 :=
          mul_le_mul_of_nonneg_left habs (le_of_lt (Real.exp_pos _))
      _ = 0.005 * Real.exp (-0.1 * (i : ℝ)) := mul_comm _ _
  refine ⟨key, ?_⟩
  have herr : (mkDiagnostics config i (energyAt config rand i)).error =
      |energyAt config rand i - baseEnergy config| * 1000 := rfl
  rw [herr]
  linarith

/-- Witness for C9 with the oracle that always draws 0, at iteration 0. -/
theorem spec_C9_witness :
    |energyAt sampleConfig zeroRand 0 - baseEnergy sampleConfig| ≤
      0.005 * Real.exp (-0.1 * ((0 : ℕ) : ℝ)) ∧
    (mkDiagnostics sampleConfig 0 (energyAt sampleConfig zeroRand 0)).error ≤
      5 * Real.exp (-0.1 * ((0 : ℕ) : ℝ)) :=
  spec_C9 sampleConfig zeroRand 0 (by norm_num [zeroRand]) (by norm_num [zeroRand])

/-- C10: a complete Convergence Simulator run leaves `dissociationData`
unchanged, and a complete Dissociation Curve run leaves the stored
`results` unchanged. -/
theorem spec_C10 (config : MoleculeConfig) (rand : ℕ → ℝ) (app app2 : AppState) :
    (runVQE config rand app).app.dissociationData = app.dissociationData ∧
    (generateDissociationCurve app2).results = app2.results := by
  constructor
  · show (setIsRunning false (vqeLoop config rand (initLoop app) 51).app).dissociationData = _
    rw [setIsRunning]
    rw [vqeLoop_dissociationData]
    rfl
  · simp [generateDissociationCurve, setIsRunning, setDissociationData,
      dissocLoop_results]

end QubitQuests
